import Mathlib

/-!
Verification of the py-icepacker codec façade against its specification.

The repository ships two near-duplicate Python wrappers around the external
`unice68` native codec: `icepack/icepack.py` (class `Icepack`) and
`icepacker/icepacker.py` (class `Icepacker`).  Both expose the operations
`depacked_size`, `depack`, `pack`, a library-naming-scheme heuristic
(`get_libformat`) and a constructor that resolves, loads and binds a native
backend.  The native codec itself is external to the repository; it enters the
model only as an abstract `Backend` record of its three entry points.

Bytes are modelled as `Nat`, byte buffers as `List Nat`, C `int` results as
`Int` (the façade-level Python code performs no arithmetic that can overflow;
width concerns live entirely inside the opaque backend).
-/

namespace PyIcepacker

/-- The closed error taxonomy of the façade (spec §7), together with the two
raw Python exceptions the code can actually leak (`AttributeError` from
`Icepack._setup_functions`, `TypeError` from `ospath.join` with `None`). -/
inductive Err where
  | schemeUndetermined
  | backendNotFound
  | loadFailed
  | attributeError
  | typeError
  | sizeQueryFailed (code : Int)
  | invalidDepackedSize
  | truncatedInput
  | decodeFailed (code : Int)
  | emptyInput
  | invalidCapacity
  | encodeFailed (code : Int)
  | encodeOverflow (amount : Int)
  deriving DecidableEq

/-- The three bound entry points of a loaded native codec backend
(`unice68_depacked_size`, `unice68_depacker`, `unice68_packer`).
`sizeQuery` returns the pair `(result, packed-size out-parameter)`;
`decode src` and `encode max src` return the C result code together with the
byte list the native call writes into the caller-supplied buffer. -/
structure Backend where
  sizeQuery : List Nat → Int × Int
  decode : List Nat → Int × List Nat
  encode : Int → List Nat → Int × List Nat

/-- Contents of a `ctypes.create_string_buffer n` after the native call wrote
the bytes `w` into it: the written bytes clipped to the buffer's extent,
zero-initialised padding beyond them.  Its length is always exactly `n`. -/
def writeBuffer (n : Nat) (w : List Nat) : List Nat :=
  w.take n ++ List.replicate (n - w.length) 0

/-- `icepack.py` line 212 / `icepacker.py` line 227: the default capacity
`16 + (input_len * 9 >> 3)` used by `pack` when no `max_size` is given. -/
def defaultCap (n : Nat) : Nat :=
  16 + n * 9 / 8

/-- `Icepack.depacked_size` (icepack.py lines 148-166): call the backend size
query, fail on a negative result, otherwise return the pair unchanged. -/
def Icepack.depacked_size (lib : Backend) (buffer : List Nat) : Except Err (Int × Int) :=
  let rc := lib.sizeQuery buffer
  if rc.1 < 0 then .error (.sizeQueryFailed rc.1) else .ok rc

/-- `Icepack.depack` (icepack.py lines 168-191): size query, reject a
non-positive depacked size, decode into a fresh buffer of that size, return
its first `depacked_size` bytes.  Note: this variant performs no
`packed_size` / input-length comparison. -/
def Icepack.depack (lib : Backend) (src : List Nat) : Except Err (List Nat) :=
  match Icepack.depacked_size lib src with
  | .error e => .error e
  | .ok ds =>
    if ds.1 ≤ 0 then .error .invalidDepackedSize
    else
      let rw := lib.decode src
      if rw.1 ≠ 0 then .error (.decodeFailed rw.1)
      else .ok ((writeBuffer ds.1.toNat rw.2).take ds.1.toNat)

/-- `Icepack.pack` (icepack.py lines 193-224).  `max_size = none` models the
Python default `None`; line 211 tests `max_size is None`. -/
def Icepack.pack (lib : Backend) (src : List Nat) (max_size : Option Int) :
    Except Err (List Nat) :=
  if src.isEmpty then .error .emptyInput
  else
    let m : Int := match max_size with
      | none => (defaultCap src.length : Int)
      | some v => v
    if m ≤ 0 then .error .invalidCapacity
    else
      let rw := lib.encode m src
      let dst := writeBuffer m.toNat rw.2
      if rw.1 < 0 then .error (.encodeFailed rw.1)
      else if m < rw.1 then .error (.encodeOverflow (rw.1 - m))
      else .ok (dst.take rw.1.toNat)

/-- `Icepacker.depacked_size` (icepacker.py lines 162-180); body identical to
the `Icepack` variant. -/
def Icepacker.depacked_size (lib : Backend) (buffer : List Nat) : Except Err (Int × Int) :=
  let rc := lib.sizeQuery buffer
  if rc.1 < 0 then .error (.sizeQueryFailed rc.1) else .ok rc

/-- `Icepacker.depack` (icepacker.py lines 182-207): like `Icepack.depack`,
with the additional line 198 check `packed_size > len(src)` raising
`Missing packed data` (the spec's `TruncatedInput`) before decoding. -/
def Icepacker.depack (lib : Backend) (src : List Nat) : Except Err (List Nat) :=
  match Icepacker.depacked_size lib src with
  | .error e => .error e
  | .ok ds =>
    if ds.1 ≤ 0 then .error .invalidDepackedSize
    else if (src.length : Int) < ds.2 then .error .truncatedInput
    else
      let rw := lib.decode src
      if rw.1 ≠ 0 then .error (.decodeFailed rw.1)
      else .ok ((writeBuffer ds.1.toNat rw.2).take ds.1.toNat)

/-- `Icepacker.pack` (icepacker.py lines 209-239).  Line 227 tests
`if not max_size:`, which is true both for `None` and for a supplied `0`. -/
def Icepacker.pack (lib : Backend) (src : List Nat) (max_size : Option Int) :
    Except Err (List Nat) :=
  if src.isEmpty then .error .emptyInput
  else
    let m : Int := match max_size with
      | none => (defaultCap src.length : Int)
      | some v => if v = 0 then (defaultCap src.length : Int) else v
    if m ≤ 0 then .error .invalidCapacity
    else
      let rw := lib.encode m src
      let dst := writeBuffer m.toNat rw.2
      if rw.1 < 0 then .error (.encodeFailed rw.1)
      else if m < rw.1 then .error (.encodeOverflow (rw.1 - m))
      else .ok (dst.take rw.1.toNat)

theorem writeBuffer_length (n : Nat) (w : List Nat) : (writeBuffer n w).length = n := by
  simp [writeBuffer]
  omega

theorem writeBuffer_take_of_le (n : Nat) (w : List Nat) (h : w.length ≤ n) :
    (writeBuffer n w).take w.length = w := by
  have htake : w.take n = w := List.take_of_length_le h
  simp [writeBuffer, htake]

theorem writeBuffer_eq_self (n : Nat) (w : List Nat) (h : w.length = n) :
    writeBuffer n w = w := by
  subst h
  simp [writeBuffer]

/-- A concrete backend whose size query reports depacked size 5 but packed
size 10 on every buffer, and whose decoder succeeds writing five bytes.
Used to exercise the façade on inputs shorter than the reported packed size. -/
def truncLib : Backend :=
  { sizeQuery := fun _ => (5, 10)
    decode := fun _ => (0, [1, 2, 3, 4, 5])
    encode := fun _ _ => (1, [42]) }

/-- A concrete backend whose size query always fails with native code -3. -/
def sqFailLib : Backend :=
  { sizeQuery := fun _ => (-3, 0)
    decode := fun _ => (0, [])
    encode := fun _ _ => (0, []) }

/-- C6: `depacked_size` fails with `SizeQueryFailed` carrying the native code
exactly when the backend size query returns a negative result, and otherwise
returns the backend's `(result, packed_size_out)` pair unchanged — in both
modules. -/
theorem depacked_size_spec (lib : Backend) (buffer : List Nat) :
    ((lib.sizeQuery buffer).1 < 0 →
      Icepack.depacked_size lib buffer = .error (.sizeQueryFailed (lib.sizeQuery buffer).1) ∧
      Icepacker.depacked_size lib buffer = .error (.sizeQueryFailed (lib.sizeQuery buffer).1)) ∧
    (0 ≤ (lib.sizeQuery buffer).1 →
      Icepack.depacked_size lib buffer = .ok (lib.sizeQuery buffer) ∧
      Icepacker.depacked_size lib buffer = .ok (lib.sizeQuery buffer)) := by
  constructor
  · intro h
    simp [Icepack.depacked_size, Icepacker.depacked_size, h]
  · intro h
    simp [Icepack.depacked_size, Icepacker.depacked_size, not_lt.mpr h]

/-- Witness for C6 at two concrete backends: a failing size query surfaces
its native code, a succeeding one passes the pair through. -/
theorem depacked_size_spec_witness :
    Icepack.depacked_size sqFailLib [1] = .error (.sizeQueryFailed (-3)) ∧
    Icepacker.depacked_size truncLib [1] = .ok (5, 10) :=
  ⟨((depacked_size_spec sqFailLib [1]).1 (by decide)).1,
   ((depacked_size_spec truncLib [1]).2 (by decide)).2⟩

/-- C8: in both modules, `pack` fails with `EmptyInput` precisely on the empty
input; the backend (universally quantified, hence never consulted) plays no
role in that outcome. -/
theorem pack_empty_input_iff (lib : Backend) (ms : Option Int) (src : List Nat) :
    (Icepack.pack lib src ms = .error .emptyInput ↔ src = []) ∧
    (Icepacker.pack lib src ms = .error .emptyInput ↔ src = []) := by
  cases src with
  | nil => constructor <;> simp [Icepack.pack, Icepacker.pack]
  | cons a t =>
    constructor <;>
    · simp only [Icepack.pack, Icepacker.pack, List.isEmpty_cons, Bool.false_eq_true, if_false]
      constructor
      · intro h
        split_ifs at h <;> simp_all
      · intro h
        exact absurd h (by simp)

/-- Witness for C8: both packs reject the concrete empty buffer, for a
concrete backend. -/
theorem pack_empty_input_iff_witness :
    Icepack.pack truncLib [] none = .error .emptyInput ∧
    Icepacker.pack truncLib [] none = .error .emptyInput :=
  ⟨(pack_empty_input_iff truncLib none []).1.mpr rfl,
   (pack_empty_input_iff truncLib none []).2.mpr rfl⟩

/-- C7: whenever `depack` returns successfully — in either module — the
returned plain buffer has exactly the depacked size reported by the backend
size query on `src`, never more, never less. -/
theorem depack_returns_depacked_size_bytes (lib : Backend) (src buf : List Nat) :
    (Icepack.depack lib src = .ok buf → (buf.length : Int) = (lib.sizeQuery src).1) ∧
    (Icepacker.depack lib src = .ok buf → (buf.length : Int) = (lib.sizeQuery src).1) := by
  have hlen : ∀ d : Int, 0 < d →
      (((writeBuffer d.toNat (lib.decode src).2).take d.toNat).length : Int) = d := by
    intro d hd
    rw [List.length_take, writeBuffer_length, Nat.min_self]
    exact Int.toNat_of_nonneg (le_of_lt hd)
  constructor
  · intro h
    unfold Icepack.depack Icepack.depacked_size at h
    by_cases h0 : (lib.sizeQuery src).1 < 0
    · simp [h0] at h
    · simp only [h0, if_false] at h
      by_cases h1 : (lib.sizeQuery src).1 ≤ 0
      · simp [h1] at h
      · simp only [h1, if_false] at h
        by_cases h2 : (lib.decode src).1 ≠ 0
        · simp [h2] at h
        · simp only [h2, if_false, Except.ok.injEq] at h
          rw [← h]
          exact hlen _ (lt_of_not_le h1)
  · intro h
    unfold Icepacker.depack Icepacker.depacked_size at h
    by_cases h0 : (lib.sizeQuery src).1 < 0
    · simp [h0] at h
    · simp only [h0, if_false] at h
      by_cases h1 : (lib.sizeQuery src).1 ≤ 0
      · simp [h1] at h
      · simp only [h1, if_false] at h
        by_cases h1' : (src.length : Int) < (lib.sizeQuery src).2
        · simp [h1'] at h
        · simp only [h1', if_false] at h
          by_cases h2 : (lib.decode src).1 ≠ 0
          · simp [h2] at h
          · simp only [h2, if_false, Except.ok.injEq] at h
            rw [← h]
            exact hlen _ (lt_of_not_le h1)

/-- Witness for C7: at a concrete backend and input, the successful depack of
each module returns a buffer whose length equals the reported depacked size. -/
theorem depack_returns_depacked_size_bytes_witness :
    (([1, 2, 3, 4, 5] : List Nat).length : Int) = (truncLib.sizeQuery [0, 0, 0, 0, 0, 0, 0, 0, 0, 0]).1 ∧
    (([1, 2, 3, 4, 5] : List Nat).length : Int) = (truncLib.sizeQuery [0, 0, 0, 0, 0, 0, 0, 0, 0, 0]).1 :=
  ⟨(depack_returns_depacked_size_bytes truncLib [0, 0, 0, 0, 0, 0, 0, 0, 0, 0] [1, 2, 3, 4, 5]).1 rfl,
   (depack_returns_depacked_size_bytes truncLib [0, 0, 0, 0, 0, 0, 0, 0, 0, 0] [1, 2, 3, 4, 5]).2 rfl⟩

/-- C5: for non-empty `src` and positive supplied capacity, `pack` — in both
modules — classifies the encode result exhaustively: negative raises
`EncodeFailed` with the native code, above capacity raises `EncodeOverflow`
with the overflow amount, and anything in `[0, max_size]` returns exactly
the first `result` bytes of the destination buffer. -/
theorem pack_encode_result_classification (lib : Backend) (src : List Nat) (m : Int)
    (hs : src ≠ []) (hm : 0 < m) :
    ((lib.encode m src).1 < 0 →
      Icepack.pack lib src (some m) = .error (.encodeFailed (lib.encode m src).1) ∧
      Icepacker.pack lib src (some m) = .error (.encodeFailed (lib.encode m src).1)) ∧
    (m < (lib.encode m src).1 →
      Icepack.pack lib src (some m) = .error (.encodeOverflow ((lib.encode m src).1 - m)) ∧
      Icepacker.pack lib src (some m) = .error (.encodeOverflow ((lib.encode m src).1 - m))) ∧
    (0 ≤ (lib.encode m src).1 → (lib.encode m src).1 ≤ m →
      Icepack.pack lib src (some m) =
        .ok ((writeBuffer m.toNat (lib.encode m src).2).take (lib.encode m src).1.toNat) ∧
      Icepacker.pack lib src (some m) =
        .ok ((writeBuffer m.toNat (lib.encode m src).2).take (lib.encode m src).1.toNat)) := by
  have hie : src.isEmpty = false := by simp [hs]
  have hm' : ¬ m ≤ 0 := not_le.mpr hm
  have hm0 : m ≠ 0 := hm.ne'
  refine ⟨?_, ?_, ?_⟩
  · intro h
    constructor
    · simp [Icepack.pack, hie, hm', h]
    · simp [Icepacker.pack, hie, hm', hm0, h]
  · intro h
    have h0 : ¬ (lib.encode m src).1 < 0 := by omega
    constructor
    · simp [Icepack.pack, hie, hm', h0, h]
    · simp [Icepacker.pack, hie, hm', hm0, h0, h]
  · intro h0 h1
    constructor
    · simp [Icepack.pack, hie, hm', not_lt.mpr h0, not_lt.mpr h1]
    · simp [Icepacker.pack, hie, hm', hm0, not_lt.mpr h0, not_lt.mpr h1]

/-- Witness for C5: at a concrete backend, input and capacity, the in-range
case of both modules returns the first `result` bytes of the destination
buffer. -/
theorem pack_encode_result_classification_witness :
    Icepack.pack truncLib [5] (some 17) = .ok [42] ∧
    Icepacker.pack truncLib [5] (some 17) = .ok [42] := by
  have h := (pack_encode_result_classification truncLib [5] 17 (by decide) (by decide)).2.2
    (by decide) (by decide)
  constructor
  · rw [h.1]
    rfl
  · rw [h.2]
    rfl

/-- C1 counterexample: on a one-byte input for which the size query succeeds
with depacked size 5 and reports packed size 10 (strictly greater than the
input length 1), `Icepack.depack` does not fail with `TruncatedInput`: it
invokes the decoder and returns a plain buffer. -/
theorem icepack_depack_ignores_truncation_cex :
    0 < (truncLib.sizeQuery [0]).1 ∧
    (([0] : List Nat).length : Int) < (truncLib.sizeQuery [0]).2 ∧
    Icepack.depack truncLib [0] = .ok [1, 2, 3, 4, 5] :=
  ⟨by decide, by decide, rfl⟩

/-- C1 amended: it is `Icepacker.depack` that fails with `TruncatedInput`
whenever the size query succeeds with a positive depacked size and the
reported packed size exceeds the input length; the backend decoder
(universally quantified) is never consulted in that case. -/
theorem icepacker_depack_truncated_input (lib : Backend) (src : List Nat)
    (h1 : 0 < (lib.sizeQuery src).1)
    (h2 : (src.length : Int) < (lib.sizeQuery src).2) :
    Icepacker.depack lib src = .error .truncatedInput := by
  have h0 : ¬ (lib.sizeQuery src).1 < 0 := by omega
  have h0' : ¬ (lib.sizeQuery src).1 ≤ 0 := not_le.mpr h1
  simp [Icepacker.depack, Icepacker.depacked_size, h0, h0', h2]

/-- Witness for the amended C1 at a concrete backend and a concrete too-short
input. -/
theorem icepacker_depack_truncated_input_witness :
    Icepacker.depack truncLib [0] = .error .truncatedInput :=
  icepacker_depack_truncated_input truncLib [0] (by decide) (by decide)

/-- C4 counterexample: `Icepacker.pack` with the supplied capacity 0 does not
fail with `InvalidCapacity`; line 227 treats `0` as falsy, substitutes the
default capacity and invokes the encoder, here returning a buffer. -/
theorem icepacker_pack_zero_capacity_cex :
    Icepacker.pack truncLib [5] (some 0) = .ok [42] ∧
    Icepacker.pack truncLib [5] (some 0) ≠ .error .invalidCapacity := by
  have e : Icepacker.pack truncLib [5] (some 0) = .ok [42] := rfl
  refine ⟨e, ?_⟩
  intro h
  rw [e] at h
  exact Except.noConfusion h

/-- C4 amended: without `max_size` both packs use the capacity
`16 + floor(len(src) * 9 / 8)` exactly; `Icepack.pack` fails with
`InvalidCapacity` for every supplied `max_size ≤ 0`, while `Icepacker.pack`
does so only for strictly negative values, a supplied `0` being falsy and
replaced by the default capacity. -/
theorem pack_capacity_policy :
    (∀ (lib : Backend) (src : List Nat),
      Icepack.pack lib src none = Icepack.pack lib src (some (defaultCap src.length : Int)) ∧
      Icepacker.pack lib src none = Icepacker.pack lib src (some (defaultCap src.length : Int))) ∧
    (∀ (lib : Backend) (src : List Nat) (m : Int), m ≤ 0 →
      Icepack.pack lib src (some m) =
        if src = [] then .error .emptyInput else .error .invalidCapacity) ∧
    (∀ (lib : Backend) (src : List Nat) (m : Int), m < 0 →
      Icepacker.pack lib src (some m) =
        if src = [] then .error .emptyInput else .error .invalidCapacity) ∧
    (∀ (lib : Backend) (src : List Nat),
      Icepacker.pack lib src (some 0) = Icepacker.pack lib src none) := by
  have hD : ∀ n : Nat, ((defaultCap n : Nat) : Int) ≠ 0 := by
    intro n
    have : (16 : Nat) ≤ defaultCap n := Nat.le_add_right 16 (n * 9 / 8)
    have : defaultCap n ≠ 0 := by omega
    exact_mod_cast Int.natCast_ne_zero.mpr this
  refine ⟨?_, ?_, ?_, ?_⟩
  · intro lib src
    exact ⟨rfl, by simp only [Icepacker.pack, hD src.length, if_false]⟩
  · intro lib src m hm
    cases src with
    | nil => simp [Icepack.pack]
    | cons a t => simp [Icepack.pack, hm]
  · intro lib src m hm
    have h0 : m ≠ 0 := by omega
    cases src with
    | nil => simp [Icepacker.pack]
    | cons a t => simp [Icepacker.pack, h0, le_of_lt hm]
  · intro lib src
    simp [Icepacker.pack]

/-- Witness for the amended C4 at concrete inputs: a negative capacity is
rejected by both packs, and the default-capacity equations hold at a concrete
buffer. -/
theorem pack_capacity_policy_witness :
    Icepack.pack truncLib [5] (some (-1)) = .error .invalidCapacity ∧
    Icepacker.pack truncLib [5] (some (-1)) = .error .invalidCapacity ∧
    Icepack.pack truncLib [5] none = Icepack.pack truncLib [5] (some 17) := by
  refine ⟨?_, ?_, ?_⟩
  · have h := pack_capacity_policy.2.1 truncLib [5] (-1) (by decide)
    simpa using h
  · have h := pack_capacity_policy.2.2.1 truncLib [5] (-1) (by decide)
    simpa using h
  · have h := (pack_capacity_policy.1 truncLib [5]).1
    simpa using h

/-- Modelled from the spec: the semantic three-function contract of the
external codec backend (§6 native ABI table together with §3's
compressed-buffer metadata and §8 properties 1-2).  The codec itself lives
outside this repository, so its contract is stated as hypotheses: whenever
the granted capacity reaches the documented safety margin
`16 + floor(len * 9 / 8)`, the encoder succeeds and reports the number of
bytes it wrote, and the compressed unit it produced is one from which the
size query recovers the original and packed lengths and the decoder recovers
the original payload. -/
structure Conforming (lib : Backend) : Prop where
  encode_nonneg : ∀ (m : Int) (src : List Nat), src ≠ [] →
    (defaultCap src.length : Int) ≤ m → 0 ≤ (lib.encode m src).1
  encode_le : ∀ (m : Int) (src : List Nat), src ≠ [] →
    (defaultCap src.length : Int) ≤ m → (lib.encode m src).1 ≤ m
  encode_written : ∀ (m : Int) (src : List Nat), src ≠ [] →
    (defaultCap src.length : Int) ≤ m →
    (lib.encode m src).2.length = (lib.encode m src).1.toNat
  sizeQuery_encode : ∀ (m : Int) (src : List Nat), src ≠ [] →
    (defaultCap src.length : Int) ≤ m →
    lib.sizeQuery (lib.encode m src).2 =
      ((src.length : Int), ((lib.encode m src).2.length : Int))
  decode_encode : ∀ (m : Int) (src : List Nat), src ≠ [] →
    (defaultCap src.length : Int) ≤ m →
    lib.decode (lib.encode m src).2 = (0, src)

/-- C3: for every non-empty byte sequence `b` and every backend satisfying
the three-function contract, `Icepack.depack (Icepack.pack b)` succeeds and
returns `b` itself. -/
theorem pack_depack_roundtrip (lib : Backend) (hc : Conforming lib)
    (b : List Nat) (hb : b ≠ []) :
    ∃ c, Icepack.pack lib b none = .ok c ∧ Icepack.depack lib c = .ok b := by
  have hDle : (defaultCap b.length : Int) ≤ (defaultCap b.length : Int) := le_refl _
  have h0 := hc.encode_nonneg _ b hb hDle
  have h1 := hc.encode_le _ b hb hDle
  have h2 := hc.encode_written _ b hb hDle
  have h3 := hc.sizeQuery_encode _ b hb hDle
  have h4 := hc.decode_encode _ b hb hDle
  have hie : b.isEmpty = false := by simp [hb]
  have hDpos : (0 : Int) < (defaultCap b.length : Int) := by
    have h16 : (16 : Nat) ≤ defaultCap b.length := Nat.le_add_right 16 (b.length * 9 / 8)
    exact_mod_cast Nat.lt_of_lt_of_le (by omega) h16
  refine ⟨(lib.encode (defaultCap b.length : Int) b).2, ?_, ?_⟩
  · have hwle : (lib.encode (defaultCap b.length : Int) b).2.length ≤ defaultCap b.length := by
      rw [h2]
      have := Int.toNat_le_toNat h1
      simpa using this
    have htake :
        (writeBuffer (defaultCap b.length)
            (lib.encode (defaultCap b.length : Int) b).2).take
          ((lib.encode (defaultCap b.length : Int) b).1).toNat =
        (lib.encode (defaultCap b.length : Int) b).2 := by
      rw [← h2]
      exact writeBuffer_take_of_le _ _ hwle
    simp [Icepack.pack, hie, not_le.mpr hDpos, not_lt.mpr h0, not_lt.mpr h1, htake]
  · have hblen : (0 : Int) < (b.length : Int) := by
      exact_mod_cast List.length_pos.mpr hb
    have hds : Icepack.depacked_size lib (lib.encode (defaultCap b.length : Int) b).2 =
        .ok ((b.length : Int), ((lib.encode (defaultCap b.length : Int) b).2.length : Int)) := by
      unfold Icepack.depacked_size
      rw [h3]
      exact if_neg (by simp)
    have hwb3 : (writeBuffer b.length b).take b.length = b := by
      rw [writeBuffer_eq_self b.length b rfl]
      exact List.take_length b
    simp [Icepack.depack, hds, h4, not_le.mpr hblen, hwb3]

/-- A toy conforming codec: the compressed form of `src` is `src.length ::
src`, the size query reads both lengths off the head, and the decoder drops
the head. -/
def idLib : Backend :=
  { sizeQuery := fun c => match c with
      | [] => (-1, 0)
      | n :: _ => ((n : Int), (n : Int) + 1)
    decode := fun c => (0, c.drop 1)
    encode := fun _ src => ((src.length : Int) + 1, src.length :: src) }

theorem idLib_conforming : Conforming idLib := by
  have hfits : ∀ (src : List Nat), (src.length : Int) + 1 ≤ (defaultCap src.length : Int) := by
    intro src
    have hdiv : src.length ≤ src.length * 9 / 8 := by
      calc src.length = src.length * 8 / 8 := by omega
        _ ≤ src.length * 9 / 8 := Nat.div_le_div_right (by omega)
    have : src.length + 1 ≤ defaultCap src.length := by
      unfold defaultCap
      omega
    exact_mod_cast this
  refine ⟨?_, ?_, ?_, ?_, ?_⟩
  · intro m src _ _
    simp [idLib]
    positivity
  · intro m src _ hm
    calc (idLib.encode m src).1 = (src.length : Int) + 1 := rfl
      _ ≤ (defaultCap src.length : Int) := hfits src
      _ ≤ m := hm
  · intro m src _ _
    simp [idLib]
  · intro m src _ _
    simp [idLib]
  · intro m src _ _
    simp [idLib]

/-- Witness for C3: the round trip at the toy conforming backend and the
concrete non-empty buffer `[7]`. -/
theorem pack_depack_roundtrip_witness :
    ∃ c, Icepack.pack idLib [7] none = .ok c ∧ Icepack.depack idLib c = .ok [7] :=
  pack_depack_roundtrip idLib idLib_conforming [7] (by decide)

/-- Does `s` start with `pat`, character by character. -/
def listStarts : List Char → List Char → Bool
  | [], _ => true
  | _ :: _, [] => false
  | a :: as, b :: bs => a == b && listStarts as bs

/-- Python `str.rfind` for a single character: index of its last occurrence
in `p`, or `-1`. -/
def lastIndexOfAux (c : Char) : List Char → Nat → Int → Int
  | [], _, acc => acc
  | x :: t, i, acc => lastIndexOfAux c t (i + 1) (if x == c then (i : Int) else acc)

def lastIndexOf (p : List Char) (c : Char) : Int :=
  lastIndexOfAux c p 0 (-1)

/-- `posixpath.basename`: everything after the last slash. -/
def pyBasename (p : List Char) : List Char :=
  p.drop (lastIndexOf p '/' + 1).toNat

/-- `posixpath.splitext`: split off the final dot-extension of the basename;
a run of dots leading the basename does not start an extension. -/
def pySplitext (p : List Char) : List Char × List Char :=
  let sepIdx := lastIndexOf p '/'
  let dotIdx := lastIndexOf p '.'
  if sepIdx < dotIdx ∧
      ((p.drop (sepIdx + 1).toNat).take (dotIdx - sepIdx - 1).toNat).any
        (fun c => c != '.') = true then
    (p.take dotIdx.toNat, p.drop dotIdx.toNat)
  else (p, [])

/-- Python `str.isdigit`, restricted to ASCII digits (the version segments
of library filenames). -/
def pyIsdigitL (s : List Char) : Bool :=
  !s.isEmpty && s.all Char.isDigit

theorem pySplitext_fst_lt (p : List Char) (h : (pySplitext p).2 ≠ []) :
    (pySplitext p).1.length < p.length := by
  simp only [pySplitext] at h ⊢
  split_ifs at h ⊢ with hc
  · have hlt : (lastIndexOf p '.').toNat < p.length := by
      by_contra hge
      push_neg at hge
      rw [List.drop_eq_nil_of_le hge] at h
      exact h rfl
    rw [List.length_take]
    exact lt_of_le_of_lt (min_le_left _ _) hlt
  · exact absurd rfl h

/-- The version-stripping loop of `get_libformat` (icepack.py lines 39-42):
while the final extension minus its dot is all digits, drop it and split the
remainder again. -/
def stripLoop (filename : List Char) : List Char :=
  if h : pyIsdigitL ((pySplitext filename).2.drop 1) = true then
    stripLoop (pySplitext filename).1
  else filename
termination_by filename.length
decreasing_by
  apply pySplitext_fst_lt
  intro hnil
  rw [hnil] at h
  simp [pyIsdigitL] at h

/-- `str.replace` for a non-empty pattern: rewrite each left-most
occurrence. -/
def replaceAllPos (pat rep : List Char) (s : List Char) : List Char :=
  match s with
  | [] => []
  | c :: t =>
    if h : pat ≠ [] ∧ listStarts pat (c :: t) = true then
      rep ++ replaceAllPos pat rep ((c :: t).drop pat.length)
    else c :: replaceAllPos pat rep t
termination_by s.length
decreasing_by
  · have := List.length_pos.mpr h.1
    simp [List.length_drop]
    omega
  · simp

/-- Python `str.replace` (icepack.py line 43), including the empty-pattern
corner case where the replacement is interleaved around every character. -/
def pyReplace (s pat rep : List Char) : List Char :=
  if pat = [] then rep ++ (s.map (fun c => c :: rep)).flatten
  else replaceAllPos pat rep s

/-- Python `%` formatting restricted to format strings holding exactly one
`%s` conversion (every library-name format built here): substitute the
argument for the first `%s`. -/
def pyFormat1 (fmt arg : String) : String :=
  (go arg.toList fmt.toList).asString
where
  go (a : List Char) : List Char → List Char
    | [] => []
    | c :: t => if listStarts ['%', 's'] (c :: t) = true then a ++ t.drop 1 else c :: go a t

/-- One iteration of the probing loop of `get_libformat` (icepack.py lines
34-44): call `find_library` on a template name — `none` models both a `None`
return and an exception swallowed by the bare `except` — skip falsy paths,
and otherwise infer the naming scheme from the observed filename by
stripping trailing numeric version extensions and substituting `%s` for the
template. -/
def probeOne (find_library : String → Option String) (tpl : String) : Option String :=
  match find_library tpl with
  | none => none
  | some path =>
    if path = "" then none
    else some ((pyReplace (stripLoop (pyBasename path.toList)) tpl.toList ['%', 's']).asString)

/-- `get_libformat` (icepack.py lines 21-56, textually identical in
icepacker.py lines 22-57): probe the current python library, `expat` and
`ssl` in that order; on a hit return the inferred scheme; otherwise fall
back to a fixed per-OS table, raising `SchemeUndetermined` for an
unrecognized host system. -/
def get_libformat (find_library : String → Option String) (pyver system : String) :
    Except Err String :=
  match probeOne find_library pyver with
  | some fmt => .ok fmt
  | none =>
    match probeOne find_library "expat" with
    | some fmt => .ok fmt
    | none =>
      match probeOne find_library "ssl" with
      | some fmt => .ok fmt
      | none =>
        if system = "Linux" ∨ system = "Android" then .ok "lib%s.so"
        else if system = "Windows" then .ok "%s.dll"
        else if system = "Darwin" ∨ system = "iOS" then .ok "lib%s.dylib"
        else .error .schemeUndetermined

/-- C9: the naming-scheme determination raises `SchemeUndetermined` exactly
when all three probes yield nothing and the host system is outside the
recognized set; and when probing yields nothing on a recognized system it
returns the fixed per-OS convention — `lib%s.so` for Linux and Android,
`%s.dll` for Windows, `lib%s.dylib` for Darwin and iOS. -/
theorem get_libformat_spec (fl : String → Option String) (pyver system : String) :
    (get_libformat fl pyver system = .error .schemeUndetermined ↔
      (probeOne fl pyver = none ∧ probeOne fl "expat" = none ∧ probeOne fl "ssl" = none) ∧
      ¬ (system = "Linux" ∨ system = "Android" ∨ system = "Windows" ∨
         system = "Darwin" ∨ system = "iOS")) ∧
    (probeOne fl pyver = none → probeOne fl "expat" = none → probeOne fl "ssl" = none →
      ((system = "Linux" ∨ system = "Android") →
        get_libformat fl pyver system = .ok "lib%s.so") ∧
      (system = "Windows" → get_libformat fl pyver system = .ok "%s.dll") ∧
      ((system = "Darwin" ∨ system = "iOS") →
        get_libformat fl pyver system = .ok "lib%s.dylib")) := by
  cases h1 : probeOne fl pyver with
  | some f =>
    constructor
    · simp [get_libformat, h1]
    · intro hp
      exact Option.noConfusion hp
  | none =>
    cases h2 : probeOne fl "expat" with
    | some f =>
      constructor
      · simp [get_libformat, h1, h2]
      · intro _ hp
        exact Option.noConfusion hp
    | none =>
      cases h3 : probeOne fl "ssl" with
      | some f =>
        constructor
        · simp [get_libformat, h1, h2, h3]
        · intro _ _ hp
          exact Option.noConfusion hp
      | none =>
        constructor
        · simp only [get_libformat, h1, h2, h3]
          split_ifs with c1 c2 c3 <;> simp <;> tauto
        · intro _ _ _
          refine ⟨?_, ?_, ?_⟩
          · intro hsys
            simp [get_libformat, h1, h2, h3, hsys]
          · intro hsys
            have hne : ¬ (system = "Linux" ∨ system = "Android") := by
              subst hsys
              decide
            simp [get_libformat, h1, h2, h3, hne, hsys]
          · intro hsys
            have hne1 : ¬ (system = "Linux" ∨ system = "Android") := by
              cases hsys <;> subst_vars <;> decide
            have hne2 : ¬ system = "Windows" := by
              cases hsys <;> subst_vars <;> decide
            simp [get_libformat, h1, h2, h3, hne1, hne2, hsys]

/-- Witness for C9 at a concrete always-failing probe: Windows yields the
`%s.dll` convention; an unrecognized system fails with
`SchemeUndetermined`. -/
theorem get_libformat_spec_witness :
    get_libformat (fun _ => none) "python3.11" "Windows" = .ok "%s.dll" ∧
    get_libformat (fun _ => none) "python3.11" "Plan9" = .error .schemeUndetermined :=
  ⟨((get_libformat_spec (fun _ => none) "python3.11" "Windows").2 rfl rfl rfl).2.1 rfl,
   (get_libformat_spec (fun _ => none) "python3.11" "Plan9").1.mpr
     ⟨⟨rfl, rfl, rfl⟩, by decide⟩⟩

/-- `lib_base = 'unice68'` (icepack.py line 14 / icepacker.py line 15). -/
def lib_base : String := "unice68"

/-- `mod_name = 'icepack'` (icepack.py line 15). -/
def icepack_mod_name : String := "icepack"

/-- `mod_name = 'icepacker'` (icepacker.py line 16). -/
def icepacker_mod_name : String := "icepacker"

/-- `posixpath.join` for two string components. -/
def pathJoin (a b : String) : String :=
  if b.startsWith "/" then b
  else if a = "" ∨ a.endsWith "/" then a ++ b
  else a ++ "/" ++ b

/-- `os.path.join` whose second component may be Python `None`: joining a
string with `None` raises `TypeError`. -/
def ospathJoinOpt (a : String) (b : Option String) : Except Err String :=
  match b with
  | none => .error .typeError
  | some s => .ok (pathJoin a s)

/-- `Icepacker._setup_functions` (icepacker.py lines 127-160), abstracted
over its two environment effects: whether `LoadLibrary` succeeds on a path
(`loadOk`) and whether a loaded handle exposes the three `unice68` symbols
(`symbolsOk`).  Returns the new value of `self.lib`; the Python boolean
result is `self.lib is not None`, i.e. `Option.isSome`.  A falsy `lib_path`
skips the load and binds symbols on the current `self.lib` (an
`AttributeError` on `None` included); every `OSError` or `AttributeError`
is caught and leaves `self.lib = None`. -/
def Icepacker.setup (loadOk symbolsOk : String → Bool) (selfLib : Option String)
    (lib_path : Option String) : Option String :=
  let bindCur : Option String :=
    match selfLib with
    | some l => if symbolsOk l then some l else none
    | none => none
  match lib_path with
  | some p =>
    if p ≠ "" then
      if loadOk p then (if symbolsOk p then some p else none) else none
    else bindCur
  | none => bindCur

/-- The environment a `Icepacker.__init__` run observes: the outcome of
every external call it can make. -/
structure PackerEnv where
  find_library : String → Option String
  pyver : String
  system : String
  isResource : String → Bool
  resourcePath : String → String
  topDir : String
  uniceHeader : Bool
  loadOk : String → Bool
  symbolsOk : String → Bool

/-- `Icepacker.__init__` with `lib_path = None` (icepacker.py lines 75-125).
The parameter variable `lib_path` is never reassigned before line 106, so
`ospath.join(top_dir, lib_path)` there joins with `None`; the candidates
modelled after that line are reachable only through it. -/
def Icepacker.initNone (env : PackerEnv) : Except Err String :=
  match get_libformat env.find_library env.pyver env.system with
  | .error e => .error e
  | .ok fmt =>
    let lib_name := pyFormat1 fmt lib_base
    let lib_path : Option String := none
    let bundled : Option String :=
      if env.isResource lib_name then
        Icepacker.setup env.loadOk env.symbolsOk none (some (env.resourcePath lib_name))
      else none
    match bundled with
    | some lib => .ok lib
    | none =>
      match ospathJoinOpt env.topDir lib_path with
      | .error e => .error e
      | .ok p2 =>
        match Icepacker.setup env.loadOk env.symbolsOk none (some p2) with
        | some lib => .ok lib
        | none =>
          let trySystem : Except Err String :=
            match Icepacker.setup env.loadOk env.symbolsOk none (env.find_library lib_base) with
            | some lib => .ok lib
            | none => .error .backendNotFound
          if env.uniceHeader then
            let lib_path2 := pathJoin (pathJoin icepacker_mod_name "lib") lib_name
            match Icepacker.setup env.loadOk env.symbolsOk none
                (some (pathJoin (pathJoin (pathJoin env.topDir "build") "lib") lib_path2)) with
            | some lib => .ok lib
            | none =>
              match Icepacker.setup env.loadOk env.symbolsOk none
                  (some (pathJoin (pathJoin env.topDir lib_base) lib_name)) with
              | some lib => .ok lib
              | none => trySystem
          else trySystem

/-- The environment an `Icepack.__init__` run observes. -/
structure IcepackEnv where
  find_library : String → Option String
  pyver : String
  system : String
  importError : Bool
  isResource : String → Bool
  resourcePath : String → String
  parentDir : String
  pathExists : String → Bool
  loadOk : String → Bool
  symbolsOk : String → Bool

/-- The `lib_path` resolution of `Icepack.__init__` (icepack.py lines
88-111): bundled resource (its `ImportError` swallowed), then the local
build directory filtered by `os.path.exists`, then `find_library`. -/
def Icepack.resolve (env : IcepackEnv) : Except Err (Option String) :=
  match get_libformat env.find_library env.pyver env.system with
  | .error e => .error e
  | .ok fmt =>
    let lib_name := pyFormat1 fmt lib_base
    let lib_path : Option String :=
      if env.importError then none
      else if env.isResource lib_name then some (env.resourcePath lib_name) else none
    let lib_path : Option String :=
      match lib_path with
      | none =>
        let p := pathJoin (pathJoin env.parentDir icepack_mod_name) lib_name
        if env.pathExists p then some p else none
      | some p => some p
    let lib_path : Option String :=
      match lib_path with
      | none => env.find_library lib_base
      | some p => some p
    .ok lib_path

/-- `Icepack.__init__` with `lib_path = None` (icepack.py lines 74-121):
resolve a path, raise the `Could not find` error (`BackendNotFound`) when
nothing resolves, then load exactly once — an `OSError` raising the
`Failed to load` error (`LoadFailed`) directly — and bind the three symbols,
a missing symbol escaping as a raw `AttributeError`. -/
def Icepack.initNone (env : IcepackEnv) : Except Err String :=
  match Icepack.resolve env with
  | .error e => .error e
  | .ok none => .error .backendNotFound
  | .ok (some p) =>
    if env.loadOk p then
      if env.symbolsOk p then .ok p else .error .attributeError
    else .error .loadFailed

theorem get_libformat_error_eq (fl : String → Option String) (pyver system : String)
    (e : Err) (h : get_libformat fl pyver system = .error e) : e = .schemeUndetermined := by
  unfold get_libformat at h
  split at h
  · exact absurd h (by simp)
  · split at h
    · exact absurd h (by simp)
    · split at h
      · exact absurd h (by simp)
      · split_ifs at h <;> simp_all

/-- An `Icepack` constructor environment on which probing yields nothing,
the system is Linux, the bundled resource is present but fails to load,
and both a local build and a system library would also be available. -/
def loadFailEnv : IcepackEnv :=
  { find_library := fun s => if s = "unice68" then some "/usr/lib/libunice68.so" else none
    pyver := "python3.11"
    system := "Linux"
    importError := false
    isResource := fun _ => true
    resourcePath := fun _ => "/pkg/icepack.lib/libunice68.so"
    parentDir := "/pkg"
    pathExists := fun _ => true
    loadOk := fun _ => false
    symbolsOk := fun _ => true }

/-- C2 counterexample: in `Icepack.__init__`, the bundled candidate of
`loadFailEnv` resolves (it exists) but fails to load, and the failure
surfaces immediately as `LoadFailed` — not as `BackendNotFound` — even
though the local-build and system candidates were still available. -/
theorem icepack_load_failure_not_advanced_cex :
    Icepack.initNone loadFailEnv = .error .loadFailed ∧
    Icepack.initNone loadFailEnv ≠ .error .backendNotFound := by
  have e : Icepack.initNone loadFailEnv = .error .loadFailed := rfl
  refine ⟨e, ?_⟩
  rw [e]
  simp

/-- C2 amended: in `Icepacker`, a candidate whose load or symbol binding
fails is treated as not found — `_setup_functions` swallows the failure and
reports `False`, letting its caller advance; in `Icepack`, a resolved
candidate whose load fails raises `LoadFailed` immediately, with no
advancement to the remaining candidates and no `BackendNotFound`. -/
theorem binding_failure_candidate_rejected :
    (∀ (loadOk symbolsOk : String → Bool) (selfLib : Option String) (p : String),
      p ≠ "" → (loadOk p = false ∨ symbolsOk p = false) →
      Icepacker.setup loadOk symbolsOk selfLib (some p) = none) ∧
    (∀ (env : IcepackEnv) (p : String), Icepack.resolve env = .ok (some p) →
      env.loadOk p = false → Icepack.initNone env = .error .loadFailed) := by
  constructor
  · intro loadOk symbolsOk selfLib p hp h
    cases h with
    | inl h => simp [Icepacker.setup, hp, h]
    | inr h => simp [Icepacker.setup, hp, h]
  · intro env p hres hload
    simp [Icepack.initNone, hres, hload]

/-- Witness for the amended C2: a concrete failing-to-load candidate is
rejected by `Icepacker._setup_functions`, and the concrete environment whose
bundled candidate fails to load makes `Icepack.__init__` raise
`LoadFailed`. -/
theorem binding_failure_candidate_rejected_witness :
    Icepacker.setup (fun _ => false) (fun _ => true) none (some "/x/libunice68.so") = none ∧
    Icepack.initNone loadFailEnv = .error .loadFailed :=
  ⟨binding_failure_candidate_rejected.1 (fun _ => false) (fun _ => true) none
      "/x/libunice68.so" (by simp) (Or.inl rfl),
   binding_failure_candidate_rejected.2 loadFailEnv "/pkg/icepack.lib/libunice68.so" rfl rfl⟩

/-- An `Icepacker` constructor environment without a bundled library
resource: probing yields nothing, the system is Linux, every load would
succeed, a local source tree exists and the system search path would
resolve — yet none of these candidates is ever reached. -/
def noBundleEnv : PackerEnv :=
  { find_library := fun s => if s = "unice68" then some "/usr/lib/libunice68.so" else none
    pyver := "python3.11"
    system := "Linux"
    isResource := fun _ => false
    resourcePath := fun _ => ""
    topDir := "/top"
    uniceHeader := true
    loadOk := fun _ => true
    symbolsOk := fun _ => true }

/-- C10: constructing `Icepacker` with `lib_path=None` when the bundled
resource does not yield a bound backend reaches
`ospath.join(top_dir, lib_path)` with `lib_path` still `None` and raises
`TypeError`; consequently the local-build and system candidates are dead
code and `Icepacker.__init__` can never raise `BackendNotFound`. -/
theorem icepacker_init_none_raises_typeError :
    (∀ (env : PackerEnv) (fmt : String),
      get_libformat env.find_library env.pyver env.system = .ok fmt →
      env.isResource (pyFormat1 fmt lib_base) = false →
      Icepacker.initNone env = .error .typeError) ∧
    (∀ env : PackerEnv, Icepacker.initNone env ≠ .error .backendNotFound) := by
  constructor
  · intro env fmt hfmt hres
    simp [Icepacker.initNone, hfmt, hres, ospathJoinOpt]
  · intro env h
    unfold Icepacker.initNone at h
    split at h
    · rename_i e hg
      have he : e = .schemeUndetermined := get_libformat_error_eq _ _ _ _ hg
      rw [he] at h
      simp at h
    · simp only [ospathJoinOpt] at h
      split at h
      · simp at h
      · simp at h

/-- Witness for C10 at the concrete bundled-resource-free environment:
construction fails with the raw `TypeError`, not `BackendNotFound`. -/
theorem icepacker_init_none_raises_typeError_witness :
    Icepacker.initNone noBundleEnv = .error .typeError ∧
    Icepacker.initNone noBundleEnv ≠ .error .backendNotFound :=
  ⟨icepacker_init_none_raises_typeError.1 noBundleEnv "lib%s.so" rfl rfl,
   icepacker_init_none_raises_typeError.2 noBundleEnv⟩

end PyIcepacker
